import Mathlib

/-!
Verification of the flow-field simulation engine of `aero_lab_v3`
(`src/components/FlowParticles.tsx`).

The per-frame `useFrame` callback is embedded shallowly: every numeric
value is an exact rational, and the JavaScript library functions
`Math.exp`, `Math.sin`, `Math.sqrt` and the constant `Math.PI` are
abstracted into an environment `Env` of rational-valued functions; the
predicate `EnvWf` records the elementary analytic facts the proofs use,
all of which hold for the real functions the floats approximate.
Calls to `Math.random()` are injected explicitly (`Rand`, `CRand`), so
the tick is a pure function of (state, config, input, clock, randoms).
-/

namespace AeroLab

/-- Rendering mode: `discrete` is the Swarm mode, `steam` the Streamlines
mode of the spec. -/
inductive FlowType where
  | discrete : FlowType
  | steam : FlowType
  deriving DecidableEq, Repr

/-- A flow particle, from the object literals built in the `particles`
memo of `FlowParticles.tsx`.  Swarm particles are created without a
`wakeSpread` field, hence the `Option`. -/
structure Particle where
  x : ℚ
  y : ℚ
  z : ℚ
  speedOffset : ℚ
  baseY : ℚ
  phase : ℚ
  wakeSpread : Option ℚ
  deriving DecidableEq, Repr

/-- The props of the `FlowParticles` component that the tick reads. -/
structure Cfg where
  speed : ℚ
  angle : ℚ
  thickness : ℚ
  flowType : FlowType
  showVortices : Bool
  showHeatmap : Bool
  turbulenceIntensity : ℚ
  paused : Bool
  deriving DecidableEq, Repr

/-- Rational-valued abstraction of the JavaScript math library. -/
structure Env where
  exp : ℚ → ℚ
  sin : ℚ → ℚ
  sqrt : ℚ → ℚ
  pi : ℚ

/-- The analytic facts about the math library that the development uses;
each is true of the real `exp`, `sin`, `sqrt`. -/
structure EnvWf (e : Env) : Prop where
  exp_pos : ∀ t, 0 < e.exp t
  exp_le_one : ∀ t, t ≤ 0 → e.exp t ≤ 1
  sin_zero : e.sin 0 = 0
  sqrt_lb : ∀ q c, 0 ≤ c → c ^ 2 ≤ q → c ≤ e.sqrt q

/-- The `Math.random()` draws one particle may consume during one tick:
the recycle jitter and the wake x/y jitters. -/
structure Rand where
  recycle : ℚ
  jx : ℚ
  jy : ℚ
  deriving DecidableEq, Repr

/-- The `Math.random()` draws consumed when creating one particle. -/
structure CRand where
  r1 : ℚ
  r2 : ℚ
  r3 : ℚ
  r4 : ℚ
  r5 : ℚ
  r6 : ℚ
  deriving DecidableEq, Repr

def BOUND_START : ℚ := -10

def BOUND_END : ℚ := 12

def FADE_DIST : ℚ := 3

def NUM_STREAMS : ℕ := 25

/-- Source: `Math.sign`. -/
def jsSign (y : ℚ) : ℚ := if 0 < y then 1 else if y < 0 then -1 else 0

/-- JavaScript `s || 1` on a number `s` (only `0` is falsy here). -/
def jsOrOne (a : ℚ) : ℚ := if a = 0 then 1 else a

/-- Source: `const isStalled = absAngle > 15`. -/
def isStalled (angle : ℚ) : Bool := decide (15 < |angle|)

/-- Source: `const separationPoint = isStalled ? 0.2 : 0.95`. -/
def separationPoint (angle : ℚ) : ℚ := if isStalled angle then 0.2 else 0.95

/-- Source: `const interactionRadius = 1.2 + (thickness / 25)`. -/
def interactionRadius (thickness : ℚ) : ℚ := 1.2 + thickness / 25

/-- Source: `THREE.MathUtils.degToRad`. -/
def degToRad (e : Env) (a : ℚ) : ℚ := a * (e.pi / 180)

/-- Source: `const liftFactor = Math.sin(angleRad) * 3.5`. -/
def liftFactor (e : Env) (angle : ℚ) : ℚ := e.sin (degToRad e angle) * 3.5

/-- Step 1 of the tick: `p.x += currentSpeed` and the recycle branch
(`if (p.x > BOUND_END) { ... }`). -/
def baseMove (cfg : Cfg) (r : Rand) (p : Particle) : Particle :=
  let x1 := p.x + (cfg.speed + p.speedOffset)
  if BOUND_END < x1 then
    { p with x := BOUND_START - r.recycle * 2, y := p.baseY,
             wakeSpread := p.wakeSpread.map (fun _ => 0) }
  else
    { p with x := x1 }

/-- Step 2 of the tick: potential-flow deflection.  Returns the updated
particle and the `velocityScalar` contribution `influence * 0.8`. -/
def deflect (e : Env) (cfg : Cfg) (p : Particle) : Particle × ℚ :=
  let dx := p.x - 0.3
  let dy := p.y
  let distSq := dx * dx + dy * dy
  let dist := e.sqrt distSq
  if dist < interactionRadius cfg.thickness * 2.5 then
    let influence := e.exp (-distSq * 1.5)
    let thicknessPush := jsOrOne (jsSign p.y) * influence * (cfg.thickness / 100) * 0.6
    let liftPush :=
      if dx < 0 then influence * liftFactor e cfg.angle * 0.15
      else -(influence * liftFactor e cfg.angle * 0.15)
    ({ p with y := p.y + (thicknessPush + liftPush) }, influence * 0.8)
  else (p, 0)

/-- Source: `const wakeWidth = (thickness / 100) + (absAngle / 30) + (distBehind * 0.25)`. -/
def wakeWidth (cfg : Cfg) (distBehind : ℚ) : ℚ :=
  cfg.thickness / 100 + |cfg.angle| / 30 + distBehind * 0.25

/-- Source: `const wakeIntensity = Math.min(1.0, (absAngle / 10) + 0.2)
  * Math.exp(-distBehind * 0.1) * turbulenceIntensity`. -/
def wakeIntensity (e : Env) (cfg : Cfg) (distBehind : ℚ) : ℚ :=
  min 1 (|cfg.angle| / 10 + 0.2) * e.exp (-distBehind * 0.1) * cfg.turbulenceIntensity

/-- Source: `const vortexAmp = (absAngle / 40) * 0.5 * turbulenceIntensity`. -/
def vortexAmp (cfg : Cfg) : ℚ := |cfg.angle| / 40 * 0.5 * cfg.turbulenceIntensity

/-- The value of the possibly-absent `wakeSpread` field (absent reads as 0,
matching `undefined > 0` being false in the membership test). -/
def wsVal (p : Particle) : ℚ := p.wakeSpread.getD 0

/-- The wake-membership test of the code,
`Math.abs(p.y) < wakeWidth || p.wakeSpread > 0`, together with the outer
guard `showVortices && p.x > separationPoint`. -/
def inWake (cfg : Cfg) (p : Particle) : Prop :=
  cfg.showVortices = true ∧ separationPoint cfg.angle < p.x ∧
    (|p.y| < wakeWidth cfg (p.x - separationPoint cfg.angle) ∨ 0 < wsVal p)

instance (cfg : Cfg) (p : Particle) : Decidable (inWake cfg p) := by
  unfold inWake; infer_instance

/-- Step 3 of the tick: wake turbulence.  Steam particles always carry a
`wakeSpread` (see creation), so reading it through `wsVal` is exact. -/
def wakeStep (e : Env) (cfg : Cfg) (time : ℚ) (r : Rand) (p : Particle) (vs : ℚ) :
    Particle × ℚ :=
  if cfg.showVortices = true ∧ separationPoint cfg.angle < p.x then
    let distBehind := p.x - separationPoint cfg.angle
    if |p.y| < wakeWidth cfg distBehind ∨ 0 < wsVal p then
      match cfg.flowType with
      | .steam =>
        let ws := min 2 (wsVal p + 0.01 * cfg.turbulenceIntensity)
        let jitterX := (r.jx - 0.5) * 0.05 * cfg.turbulenceIntensity
        let jitterY := (r.jy - 0.5) * 0.2 * ws
        ({ p with x := p.x + jitterX, y := p.y + jitterY, wakeSpread := some ws },
         vs + ws * 0.5)
      | .discrete =>
        let wI := wakeIntensity e cfg distBehind
        let sgn := jsOrOne (jsSign p.y)
        let oscillation := e.sin (distBehind * 12 - time * 15 + p.phase) * vortexAmp cfg * sgn
        let jitterX := (r.jx - 0.5) * 0.05 * wI
        let jitterY := (r.jy - 0.5) * 0.05 * wI
        let p' :=
          if isStalled cfg.angle then
            { p with y := p.y + (oscillation * 2 + jitterY * 2), x := p.x + jitterX * 2 }
          else
            { p with y := p.y + (oscillation * e.exp (-|p.y| * 2) + jitterY * 0.5) }
        (p', if 0.1 < wI then vs + wI * 1.2 else vs)
    else (p, vs)
  else
    ({ p with wakeSpread := p.wakeSpread.map (fun _ => 0) }, vs)

/-- The physics part of one tick for one particle (steps 1-3), returning
the new particle and its accumulated `velocityScalar`. -/
def stepPhys (e : Env) (cfg : Cfg) (time : ℚ) (r : Rand) (p : Particle) : Particle × ℚ :=
  let p1 := baseMove cfg r p
  let d := deflect e cfg p1
  wakeStep e cfg time r d.1 d.2

/-- Source: `THREE.MathUtils.smoothstep`. -/
def smoothstepQ (x a b : ℚ) : ℚ :=
  if x ≤ a then 0
  else if b ≤ x then 1
  else
    let t := (x - a) / (b - a)
    t * t * (3 - 2 * t)

/-- Source: `fadeIn * (1.0 - fadeOut)`. -/
def fadeFactor (x : ℚ) : ℚ :=
  smoothstepQ x BOUND_START (BOUND_START + FADE_DIST) *
    (1 - smoothstepQ x (BOUND_END - FADE_DIST) BOUND_END)

/-- Source: `const t = Math.min(1.5, Math.max(0, velocityScalar))`. -/
def heatT (vs : ℚ) : ℚ := min 1.5 (max 0 vs)

/-- The hue handed to `setHSL`: `Math.max(0, 0.6 - t * 0.5)`. -/
def heatHue (vs : ℚ) : ℚ := max 0 (0.6 - heatT vs * 0.5)

/-- The saturation handed to `setHSL`: `Math.min(1, 0.5 + t * 0.5)`. -/
def heatSat (vs : ℚ) : ℚ := min 1 (0.5 + heatT vs * 0.5)

/-- The lightness handed to `setHSL`: `Math.min(0.9, 0.5 + t * 0.1)`. -/
def heatLight (vs : ℚ) : ℚ := min 0.9 (0.5 + heatT vs * 0.1)

/-- Per-instance color: either an HSL triple or one of the two fixed
colors `"#ffffff"` / `"#93c5fd"`. -/
inductive Color where
  | hsl (h s l : ℚ) : Color
  | white : Color
  | lightBlue : Color
  deriving DecidableEq, Repr

/-- Step 5 of the tick: the color written for the instance. -/
def colorFor (cfg : Cfg) (vs : ℚ) : Color :=
  if cfg.showHeatmap then Color.hsl (heatHue vs) (heatSat vs) (heatLight vs)
  else
    match cfg.flowType with
    | .steam => Color.white
    | .discrete => Color.lightBlue

/-- Step 4 of the tick: the scale written for the instance (the steam
branch billboards the sprite; orientation is not modelled, only the
uniform scale is). -/
def scaleFor (cfg : Cfg) (p : Particle) : ℚ × ℚ × ℚ :=
  let f := fadeFactor p.x
  match cfg.flowType with
  | .steam =>
    let b := 0.1 + wsVal p * 0.15
    (b * f, b * f, b * f)
  | .discrete =>
    let sx := min 0.4 (0.15 + (cfg.speed + p.speedOffset))
    (sx * f, 0.02 * f, 0.02 * f)

/-- The per-instance render attributes produced by steps 4-5. -/
structure OutAttr where
  px : ℚ
  py : ℚ
  pz : ℚ
  scale : ℚ × ℚ × ℚ
  color : Color
  deriving DecidableEq, Repr

def present (cfg : Cfg) (p : Particle) (vs : ℚ) : OutAttr :=
  { px := p.x, py := p.y, pz := p.z, scale := scaleFor cfg p, color := colorFor cfg vs }

/-- One full tick for one particle: physics then presentation. -/
def stepParticle (e : Env) (cfg : Cfg) (time : ℚ) (r : Rand) (p : Particle) :
    Particle × OutAttr :=
  let q := stepPhys e cfg time r p
  (q.1, present cfg q.1 q.2)

/-- One `useFrame` tick over the whole field.  When `paused` the callback
returns before touching any particle or buffer, so the state is unchanged
and no output is produced. -/
def tickField (e : Env) (cfg : Cfg) (time : ℚ) (rnd : ℕ → Rand) (ps : List Particle) :
    List Particle × Option (List OutAttr) :=
  if cfg.paused then (ps, none)
  else
    let res := ps.enum.map (fun ip => stepParticle e cfg time (rnd ip.1) ip.2)
    (res.map Prod.fst, some (res.map Prod.snd))

/-- Iterated field states over `n` ticks. -/
def tickStateN (e : Env) (cfg : Cfg) (times : ℕ → ℚ) (rnds : ℕ → ℕ → Rand)
    (ps : List Particle) : ℕ → List Particle
  | 0 => ps
  | n + 1 => (tickField e cfg (times n) (rnds n) (tickStateN e cfg times rnds ps n)).1

/-- Iterated physics for a single particle over `n` ticks. -/
def stepPhysN (e : Env) (cfg : Cfg) (times : ℕ → ℚ) (rnds : ℕ → Rand)
    (p : Particle) : ℕ → Particle
  | 0 => p
  | n + 1 => (stepPhys e cfg (times n) (rnds n) (stepPhysN e cfg times rnds p n)).1

/-- Source: `finalCount = flowType === 'steam' ? count * 2 : count` — the number
of instances the `instancedMesh` buffer is allocated for. -/
def finalCount (ft : FlowType) (count : ℕ) : ℕ :=
  match ft with
  | .steam => count * 2
  | .discrete => count

/-- Source: `Math.floor(finalCount / NUM_STREAMS)`. -/
def particlesPerStream (fc : ℕ) : ℕ := fc / NUM_STREAMS

/-- Source: `const streamY = (i / (NUM_STREAMS - 1) - 0.5) * 10`. -/
def streamY (i : ℕ) : ℚ := ((i : ℚ) / ((NUM_STREAMS : ℚ) - 1) - 0.5) * 10

/-- Creation of one Swarm-mode particle (no `wakeSpread` field). -/
def mkDiscreteParticle (e : Env) (r : CRand) : Particle :=
  { x := (r.r1 - 0.5) * 25, y := (r.r2 - 0.5) * 12, z := (r.r3 - 0.5) * 4,
    speedOffset := r.r4 * 0.02, baseY := (r.r5 - 0.5) * 12,
    phase := r.r6 * e.pi * 2, wakeSpread := none }

/-- Creation of one Streamlines-mode particle on the stream at height `sy`. -/
def mkSteamParticle (e : Env) (sy : ℚ) (r : CRand) : Particle :=
  let jitter := (r.r1 - 0.5) * 0.15
  { x := (r.r2 - 0.5) * 25, y := sy + jitter, z := (r.r3 - 0.5) * 0.1,
    speedOffset := r.r4 * 0.02, baseY := sy + jitter,
    phase := r.r5 * e.pi * 2, wakeSpread := some 0 }

/-- The `particles` memo: the list of simulated particles. -/
def mkParticles (e : Env) (ft : FlowType) (count : ℕ) (rnd : ℕ → ℕ → CRand) :
    List Particle :=
  match ft with
  | .steam =>
    ((List.range NUM_STREAMS).map fun i =>
      (List.range (particlesPerStream (finalCount .steam count))).map fun j =>
        mkSteamParticle e (streamY i) (rnd i j)).flatten
  | .discrete =>
    (List.range (finalCount .discrete count)).map fun i => mkDiscreteParticle e (rnd i 0)

/-- A concrete well-formed math environment, used to instantiate witness
and counterexample statements. -/
def envQ : Env :=
  { exp := fun t => if t < 0 then 1 / (1 - t) else 1 + t
    sin := fun _ => 0
    sqrt := fun q => if q ≤ 1 then 1 else q
    pi := 3.141592653589793 }

theorem envQ_wf : EnvWf envQ := by
  constructor
  · intro t
    simp only [envQ]
    split_ifs with h
    · exact div_pos one_pos (by linarith)
    · linarith
  · intro t ht
    simp only [envQ]
    split_ifs with h
    · rw [div_le_one (by linarith)]
      linarith
    · have : t = 0 := le_antisymm ht (not_lt.mp h)
      simp [this]
  · simp [envQ]
  · intro q c hc hcq
    simp only [envQ]
    split_ifs with h
    · nlinarith
    · nlinarith

/-- Claim C3: The separation-point offset is the single attached value
`0.95` for every angle with `|angle| ≤ 15` (including `15` itself) and the
single, strictly smaller stalled value `0.2` for every angle with
`|angle| > 15`; the switch is the hard threshold at 15°. -/
theorem C3_stall_discontinuity (a : ℚ) :
    (|a| ≤ 15 → separationPoint a = 0.95) ∧
    (15 < |a| → separationPoint a = 0.2) ∧
    (0.2 : ℚ) < 0.95 := by
  refine ⟨fun h => ?_, fun h => ?_, by norm_num⟩
  · simp [separationPoint, isStalled, not_lt.mpr h]
  · simp [separationPoint, isStalled, h]

theorem C3_stall_discontinuity_witness :
    |(15 : ℚ)| ≤ 15 ∧ 15 < |(15.01 : ℚ)| ∧
      separationPoint 15 = 0.95 ∧ separationPoint 15.01 = 0.2 ∧ (0.2 : ℚ) < 0.95 :=
  ⟨by rw [abs_of_nonneg (by norm_num)], by rw [abs_of_nonneg (by norm_num)]; norm_num,
   (C3_stall_discontinuity 15).1 (by rw [abs_of_nonneg (by norm_num)]),
   (C3_stall_discontinuity 15.01).2.1 (by rw [abs_of_nonneg (by norm_num)]; norm_num),
   (C3_stall_discontinuity 0).2.2⟩

/-- Claim C10: In Swarm mode exactly `N` particles are simulated, matching
the buffer.  In Streamlines mode the buffer holds `2·N` instances but only
`25·⌊2·N/25⌋` particles are created; whenever `25 ∤ 2·N` some buffer slots
are never written, and for every `N ≥ 1` the simulated population differs
from the configured `N`. -/
theorem C10_population_mismatch (e : Env) (count : ℕ) (rnd : ℕ → ℕ → CRand) :
    (mkParticles e .discrete count rnd).length = count ∧
    finalCount .discrete count = count ∧
    (mkParticles e .steam count rnd).length = NUM_STREAMS * (count * 2 / NUM_STREAMS) ∧
    finalCount .steam count = count * 2 ∧
    (¬ (25 ∣ count * 2) →
      (mkParticles e .steam count rnd).length < finalCount .steam count) ∧
    (1 ≤ count → (mkParticles e .steam count rnd).length ≠ count) := by
  have hdisc : (mkParticles e .discrete count rnd).length = count := by
    simp [mkParticles, finalCount]
  have hsteam : (mkParticles e .steam count rnd).length =
      NUM_STREAMS * (count * 2 / NUM_STREAMS) := by
    simp only [mkParticles, List.length_flatten, List.map_map, Function.comp_def,
      List.length_map, List.length_range, List.map_const', List.sum_replicate,
      smul_eq_mul, particlesPerStream, finalCount]
  refine ⟨hdisc, rfl, hsteam, rfl, fun hnd => ?_, fun h1 => ?_⟩
  · rw [hsteam]
    simp only [finalCount, NUM_STREAMS] at *
    omega
  · rw [hsteam]
    simp only [NUM_STREAMS]
    omega

theorem C10_population_mismatch_witness :
    ¬ (25 ∣ 13 * 2) ∧ 1 ≤ 13 ∧
    (mkParticles envQ .discrete 13 (fun _ _ => ⟨0, 0, 0, 0, 0, 0⟩)).length = 13 ∧
    (mkParticles envQ .steam 13 (fun _ _ => ⟨0, 0, 0, 0, 0, 0⟩)).length <
      finalCount .steam 13 ∧
    (mkParticles envQ .steam 13 (fun _ _ => ⟨0, 0, 0, 0, 0, 0⟩)).length ≠ 13 := by
  refine ⟨by decide, by decide,
    (C10_population_mismatch envQ 13 (fun _ _ => ⟨0, 0, 0, 0, 0, 0⟩)).1,
    (C10_population_mismatch envQ 13 (fun _ _ => ⟨0, 0, 0, 0, 0, 0⟩)).2.2.2.2.1
      (by decide),
    (C10_population_mismatch envQ 13 (fun _ _ => ⟨0, 0, 0, 0, 0, 0⟩)).2.2.2.2.2
      (by decide)⟩

lemma baseMove_fixed (cfg : Cfg) (r : Rand) (p : Particle) :
    (baseMove cfg r p).baseY = p.baseY ∧ (baseMove cfg r p).speedOffset = p.speedOffset ∧
      (baseMove cfg r p).phase = p.phase := by
  simp only [baseMove]
  split_ifs <;> simp

lemma deflect_fixed (e : Env) (cfg : Cfg) (p : Particle) :
    (deflect e cfg p).1.baseY = p.baseY ∧
      (deflect e cfg p).1.speedOffset = p.speedOffset ∧
      (deflect e cfg p).1.phase = p.phase := by
  simp only [deflect]
  split_ifs <;> simp

lemma wakeStep_fixed (e : Env) (cfg : Cfg) (time : ℚ) (r : Rand) (p : Particle) (vs : ℚ) :
    (wakeStep e cfg time r p vs).1.baseY = p.baseY ∧
      (wakeStep e cfg time r p vs).1.speedOffset = p.speedOffset ∧
      (wakeStep e cfg time r p vs).1.phase = p.phase := by
  cases hft : cfg.flowType <;>
    simp only [wakeStep, hft] <;> split_ifs <;> simp

lemma stepPhys_fixed (e : Env) (cfg : Cfg) (time : ℚ) (r : Rand) (p : Particle) :
    (stepPhys e cfg time r p).1.baseY = p.baseY ∧
      (stepPhys e cfg time r p).1.speedOffset = p.speedOffset ∧
      (stepPhys e cfg time r p).1.phase = p.phase := by
  unfold stepPhys
  obtain ⟨h1, h2, h3⟩ := baseMove_fixed cfg r p
  obtain ⟨h4, h5, h6⟩ := deflect_fixed e cfg (baseMove cfg r p)
  obtain ⟨h7, h8, h9⟩ :=
    wakeStep_fixed e cfg time r (deflect e cfg (baseMove cfg r p)).1
      (deflect e cfg (baseMove cfg r p)).2
  exact ⟨by rw [h7, h4, h1], by rw [h8, h5, h2], by rw [h9, h6, h3]⟩

/-- Claim C5: A particle's `lane` (`baseY`), `speedBias` (`speedOffset`) and
`phase` are never modified after creation: they are identical before and
after any number of ticks (recycle events included, since recycling is
part of the tick). -/
theorem C5_identity_preserved (e : Env) (cfg : Cfg) (times : ℕ → ℚ) (rnds : ℕ → Rand)
    (p : Particle) (n : ℕ) :
    (stepPhysN e cfg times rnds p n).baseY = p.baseY ∧
      (stepPhysN e cfg times rnds p n).speedOffset = p.speedOffset ∧
      (stepPhysN e cfg times rnds p n).phase = p.phase := by
  induction n with
  | zero => exact ⟨rfl, rfl, rfl⟩
  | succ n ih =>
    obtain ⟨h1, h2, h3⟩ := ih
    obtain ⟨g1, g2, g3⟩ :=
      stepPhys_fixed e cfg (times n) (rnds n) (stepPhysN e cfg times rnds p n)
    exact ⟨by rw [stepPhysN, g1, h1], by rw [stepPhysN, g2, h2], by rw [stepPhysN, g3, h3]⟩

/-- Claim C6: With `paused = true` the tick changes no particle state and
produces no output buffer, over any number of repetitions. -/
theorem C6_paused_invariance (e : Env) (cfg : Cfg) (time : ℚ) (rnd : ℕ → Rand)
    (times : ℕ → ℚ) (rnds : ℕ → ℕ → Rand) (ps : List Particle) (n : ℕ)
    (h : cfg.paused = true) :
    tickField e cfg time rnd ps = (ps, none) ∧
      tickStateN e cfg times rnds ps n = ps := by
  have hone : ∀ t r, tickField e cfg t r ps = (ps, none) := by
    intro t r
    simp [tickField, h]
  constructor
  · exact hone time rnd
  · induction n with
    | zero => rfl
    | succ n ih =>
      rw [tickStateN, ih]
      simp [tickField, h]

/-- A sample particle used to instantiate witness statements. -/
def pW : Particle :=
  { x := 1, y := 2, z := 0, speedOffset := 0.01, baseY := 2, phase := 1,
    wakeSpread := none }

/-- A sample configuration used to instantiate witness statements. -/
def cfgW : Cfg :=
  { speed := 0.15, angle := -10, thickness := 14, flowType := .discrete,
    showVortices := true, showHeatmap := false, turbulenceIntensity := 1,
    paused := true }

theorem C6_paused_invariance_witness :
    cfgW.paused = true ∧
      (tickField envQ cfgW 0 (fun _ => ⟨0, 0, 0⟩) [pW] = ([pW], none) ∧
        tickStateN envQ cfgW (fun _ => 0) (fun _ _ => ⟨0, 0, 0⟩) [pW] 3 = [pW]) :=
  ⟨rfl, C6_paused_invariance envQ cfgW 0 (fun _ => ⟨0, 0, 0⟩) (fun _ => 0)
    (fun _ _ => ⟨0, 0, 0⟩) [pW] 3 rfl⟩

/-- Claim C8: Determinism given the clock: with the randomized draws
injected explicitly, the tick is a pure function of
(state, config, input, clock, randoms); two executions from the same prior
state produce identical particle state and identical output attributes. -/
theorem C8_determinism (e : Env) (cfg : Cfg) (time : ℚ) (rnd : ℕ → Rand)
    (ps ps' : List Particle) (h : ps = ps') :
    tickField e cfg time rnd ps = tickField e cfg time rnd ps' := by
  rw [h]

theorem C8_determinism_witness :
    [pW] = [pW] ∧
      tickField envQ cfgW 0 (fun _ => ⟨0, 0, 0⟩) [pW] =
        tickField envQ cfgW 0 (fun _ => ⟨0, 0, 0⟩) [pW] :=
  ⟨rfl, C8_determinism envQ cfgW 0 (fun _ => ⟨0, 0, 0⟩) [pW] [pW] rfl⟩

/-- Zero-input configuration: `thickness = 0`, `angle = 0`, default
turbulence 1, Swarm mode, vortices shown. -/
def cfgZ : Cfg :=
  { speed := 0.15, angle := 0, thickness := 0, flowType := .discrete,
    showVortices := true, showHeatmap := false, turbulenceIntensity := 1,
    paused := false }

/-- A particle inside the wake cone of `cfgZ` (behind the attached-flow
separation point `0.95`, close to the centerline). -/
def pZ : Particle :=
  { x := 2, y := 0.1, z := 0, speedOffset := 0, baseY := 0.1, phase := 0,
    wakeSpread := none }

/-- Claim C2 counterexample: with `thicknessPercent = 0` and
`angleOfAttackDeg = 0` the WakeModel intensity is *not* zero: for a
particle in the wake it evaluates to `0.2 · exp(−0.1·distBehind) · 1 > 0`
because of the `+0.2` floor in
`Math.min(1.0, (absAngle / 10) + 0.2)`. -/
theorem C2_zero_input_cex :
    cfgZ.thickness = 0 ∧ cfgZ.angle = 0 ∧ inWake cfgZ pZ ∧
      0 < wakeIntensity envQ cfgZ (pZ.x - separationPoint cfgZ.angle) := by
  refine ⟨rfl, rfl, ⟨rfl, ?_, Or.inl ?_⟩, ?_⟩
  · norm_num [separationPoint, isStalled, cfgZ, pZ]
  · norm_num [wakeWidth, separationPoint, isStalled, cfgZ, pZ, abs_of_nonneg]
  · norm_num [wakeIntensity, separationPoint, isStalled, cfgZ, pZ, envQ]

/-- Claim C2 (amended): with `thicknessPercent = 0` and
`angleOfAttackDeg = 0` the DeflectionModel leaves every particle exactly
unchanged (both pushes vanish multiplicatively, with no division by a
vanishing denominator), and the vortex amplitude is zero; but the
WakeModel intensity equals `0.2 · exp(−0.1·distBehind) ·
turbulenceIntensity`, which is strictly positive whenever
`turbulenceIntensity > 0` and zero only when `turbulenceIntensity = 0`. -/
theorem C2_zero_input_amended (e : Env) (cfg : Cfg) (p : Particle) (d : ℚ)
    (he : EnvWf e) (hth : cfg.thickness = 0) (hang : cfg.angle = 0) :
    (deflect e cfg p).1 = p ∧
      wakeIntensity e cfg d = 0.2 * e.exp (-d * 0.1) * cfg.turbulenceIntensity ∧
      (0 < cfg.turbulenceIntensity → 0 < wakeIntensity e cfg d) ∧
      (cfg.turbulenceIntensity = 0 → wakeIntensity e cfg d = 0) ∧
      vortexAmp cfg = 0 := by
  have hmin : min (1 : ℚ) (|cfg.angle| / 10 + 0.2) = 0.2 := by
    rw [hang]
    norm_num
  have hwi : wakeIntensity e cfg d = 0.2 * e.exp (-d * 0.1) * cfg.turbulenceIntensity := by
    rw [wakeIntensity, hmin]
  refine ⟨?_, hwi, fun hT => ?_, fun hT => ?_, ?_⟩
  · have hlf : liftFactor e cfg.angle = 0 := by
      simp [liftFactor, degToRad, hang, he.sin_zero]
    simp only [deflect, hth, hlf]
    norm_num
    split_ifs <;> rfl
  · rw [hwi]
    have := he.exp_pos (-d * 0.1)
    positivity
  · rw [hwi, hT, mul_zero]
  · simp [vortexAmp, hang]

theorem C2_zero_input_witness :
    cfgZ.thickness = 0 ∧ cfgZ.angle = 0 ∧
      ((deflect envQ cfgZ pZ).1 = pZ ∧
        wakeIntensity envQ cfgZ 1.05 =
          0.2 * envQ.exp (-1.05 * 0.1) * cfgZ.turbulenceIntensity ∧
        (0 < cfgZ.turbulenceIntensity → 0 < wakeIntensity envQ cfgZ 1.05) ∧
        (cfgZ.turbulenceIntensity = 0 → wakeIntensity envQ cfgZ 1.05 = 0) ∧
        vortexAmp cfgZ = 0) :=
  ⟨rfl, rfl, C2_zero_input_amended envQ cfgZ pZ 1.05 envQ_wf rfl rfl⟩

/-- Heatmap configuration for the color-ramp statements. -/
def cfgH : Cfg :=
  { speed := 0.15, angle := -10, thickness := 14, flowType := .discrete,
    showVortices := true, showHeatmap := true, turbulenceIntensity := 1,
    paused := false }

/-- Claim C7 counterexample: strictly greater accumulated intensity does
*not* always give a strictly smaller hue: at intensities `1.6 < 1.7` the
clamp `t = min(1.5, ...)` makes the whole color identical, and at
`1.3 < 1.4` the clamp `Math.max(0, hue)` makes the hue identical. -/
theorem C7_heatmap_monotonicity_cex :
    cfgH.showHeatmap = true ∧
      (1.6 : ℚ) < 1.7 ∧ colorFor cfgH 1.6 = colorFor cfgH 1.7 ∧
      (1.3 : ℚ) < 1.4 ∧ heatHue 1.3 = heatHue 1.4 := by
  refine ⟨rfl, by norm_num, ?_, by norm_num, ?_⟩
  · have h1 : heatT 1.6 = 1.5 := by norm_num [heatT]
    have h2 : heatT 1.7 = 1.5 := by norm_num [heatT]
    simp [colorFor, cfgH, heatHue, heatSat, heatLight, h1, h2]
  · have h1 : heatT 1.3 = 1.3 := by norm_num [heatT]
    have h2 : heatT 1.4 = 1.4 := by norm_num [heatT]
    rw [heatHue, heatHue, h1, h2]
    norm_num

/-- Claim C7 (amended): with the heatmap enabled a particle's color is
`hsl(heatHue vs, heatSat vs, heatLight vs)` of its accumulated
`velocityScalar`; the hue is non-increasing in the intensity (never
farther from the hot end for a greater intensity), and strictly
decreasing — strictly closer to the hot end — whenever the clamps are
inactive, i.e. on intensities in `[0, 1.2]`. -/
theorem C7_heatmap_monotonicity_amended (cfg : Cfg) (v1 v2 : ℚ)
    (hh : cfg.showHeatmap = true) (h12 : v1 < v2) :
    colorFor cfg v1 = Color.hsl (heatHue v1) (heatSat v1) (heatLight v1) ∧
      heatHue v2 ≤ heatHue v1 ∧
      (0 ≤ v1 → v2 ≤ 1.2 → heatHue v2 < heatHue v1) := by
  refine ⟨by simp [colorFor, hh], ?_, fun h0 h2 => ?_⟩
  · have ht : heatT v1 ≤ heatT v2 :=
      min_le_min le_rfl (max_le_max le_rfl h12.le)
    have : 0.6 - heatT v2 * 0.5 ≤ 0.6 - heatT v1 * 0.5 := by linarith
    exact max_le_max le_rfl this
  · have ht1 : heatT v1 = v1 := by
      rw [heatT, max_eq_right h0, min_eq_right (by linarith)]
    have ht2 : heatT v2 = v2 := by
      rw [heatT, max_eq_right (by linarith), min_eq_right (by linarith)]
    have hh1 : heatHue v1 = 0.6 - v1 * 0.5 := by
      rw [heatHue, ht1, max_eq_right (by linarith)]
    have hh2 : heatHue v2 = 0.6 - v2 * 0.5 := by
      rw [heatHue, ht2, max_eq_right (by linarith)]
    rw [hh1, hh2]
    linarith

theorem C7_heatmap_monotonicity_witness :
    cfgH.showHeatmap = true ∧ (0.4 : ℚ) < 0.8 ∧
      (colorFor cfgH 0.4 = Color.hsl (heatHue 0.4) (heatSat 0.4) (heatLight 0.4) ∧
        heatHue 0.8 ≤ heatHue 0.4 ∧
        (0 ≤ (0.4 : ℚ) → (0.8 : ℚ) ≤ 1.2 → heatHue 0.8 < heatHue 0.4)) :=
  ⟨rfl, by norm_num, C7_heatmap_monotonicity_amended cfgH 0.4 0.8 rfl (by norm_num)⟩

lemma separationPoint_bounds (a : ℚ) :
    0.2 ≤ separationPoint a ∧ separationPoint a ≤ 0.95 := by
  unfold separationPoint
  split_ifs <;> norm_num

lemma deflect_x (e : Env) (cfg : Cfg) (p : Particle) :
    (deflect e cfg p).1.x = p.x := by
  simp only [deflect]
  split_ifs <;> rfl

lemma deflect_ws (e : Env) (cfg : Cfg) (p : Particle) :
    (deflect e cfg p).1.wakeSpread = p.wakeSpread := by
  simp only [deflect]
  split_ifs <;> rfl

/-- A particle reseeded far upstream (`x ≤ −10`) is outside the influence
radius (for any thickness in domain) and ahead of the separation point, so
the deflection and wake steps leave it untouched. -/
lemma upstream_skip (e : Env) (cfg : Cfg) (time : ℚ) (r : Rand) (q : Particle)
    (he : EnvWf e) (hth0 : 0 ≤ cfg.thickness) (hth40 : cfg.thickness ≤ 40)
    (hqx : q.x ≤ -10) :
    deflect e cfg q = (q, 0) ∧
      wakeStep e cfg time r q 0 =
        ({ q with wakeSpread := q.wakeSpread.map (fun _ => 0) }, 0) := by
  constructor
  · have hdist : interactionRadius cfg.thickness * 2.5 ≤
        e.sqrt ((q.x - 0.3) * (q.x - 0.3) + q.y * q.y) := by
      apply he.sqrt_lb
      · rw [interactionRadius]
        nlinarith
      · have hdx : q.x - 0.3 ≤ -10.3 := by linarith
        have h3 : (0 : ℚ) ≤ q.y * q.y := mul_self_nonneg _
        have ha : (0 : ℚ) ≤ 1.2 + cfg.thickness / 25 := by linarith
        have hb : 1.2 + cfg.thickness / 25 ≤ 2.8 := by linarith
        have hsq : (1.2 + cfg.thickness / 25) * (1.2 + cfg.thickness / 25) ≤ 7.84 := by
          nlinarith
        have hdx2 : (106.09 : ℚ) ≤ (q.x - 0.3) * (q.x - 0.3) := by nlinarith
        rw [interactionRadius]
        nlinarith
    simp only [deflect]
    rw [if_neg (not_lt.mpr hdist)]
  · have hsep : ¬ (cfg.showVortices = true ∧ separationPoint cfg.angle < q.x) := by
      rintro ⟨-, h2⟩
      have := (separationPoint_bounds cfg.angle).1
      linarith
    simp only [wakeStep]
    rw [if_neg hsep]

/-- Claim C9: In Swarm mode, a particle at `x = xMax − 0.01` with
`baseSpeed = 1` wraps in exactly one tick: its `x` becomes
`xMin − jitter` with `jitter = 2·recycleRand ∈ [0, 2)` (so
`x ∈ (−12, −10]`), its `y` resets to its lane, and the deflection and
wake steps leave the reseeded particle untouched because it is far
upstream. -/
theorem C9_recycle_scenario (e : Env) (cfg : Cfg) (time : ℚ) (r : Rand) (p : Particle)
    (he : EnvWf e) (hft : cfg.flowType = .discrete) (hspeed : cfg.speed = 1)
    (hth0 : 0 ≤ cfg.thickness) (hth40 : cfg.thickness ≤ 40)
    (hx : p.x = BOUND_END - 0.01)
    (hso0 : 0 ≤ p.speedOffset) (hso : p.speedOffset < 0.02)
    (hr0 : 0 ≤ r.recycle) (hr1 : r.recycle < 1)
    (hws : p.wakeSpread = none) :
    (stepPhys e cfg time r p).1.x = BOUND_START - r.recycle * 2 ∧
      -12 < (stepPhys e cfg time r p).1.x ∧ (stepPhys e cfg time r p).1.x ≤ -10 ∧
      (stepPhys e cfg time r p).1.y = p.baseY ∧
      (stepPhys e cfg time r p).1.wakeSpread = none := by
  have hx1 : BOUND_END < p.x + (cfg.speed + p.speedOffset) := by
    rw [hx, hspeed, BOUND_END]
    linarith
  have hbm : baseMove cfg r p =
      { p with x := BOUND_START - r.recycle * 2, y := p.baseY, wakeSpread := none } := by
    simp only [baseMove]
    rw [if_pos hx1, hws]
    rfl
  have hqx : (baseMove cfg r p).x ≤ -10 := by
    rw [hbm]
    show BOUND_START - r.recycle * 2 ≤ -10
    rw [BOUND_START]
    linarith
  obtain ⟨hdef, hwk⟩ := upstream_skip e cfg time r (baseMove cfg r p) he hth0 hth40 hqx
  rw [hbm] at hdef hwk
  have hstep : stepPhys e cfg time r p =
      ({ p with
          x := BOUND_START - r.recycle * 2, y := p.baseY,
          wakeSpread := none }, 0) := by
    rw [stepPhys, hbm, hdef]
    exact hwk
  rw [hstep]
  refine ⟨rfl, ?_, ?_, rfl, rfl⟩
  · show -12 < BOUND_START - r.recycle * 2
    rw [BOUND_START]
    linarith
  · show BOUND_START - r.recycle * 2 ≤ -10
    rw [BOUND_START]
    linarith

/-- Configuration of the C9 witness scenario. -/
def cfgN : Cfg :=
  { speed := 1, angle := -10, thickness := 14, flowType := .discrete,
    showVortices := true, showHeatmap := false, turbulenceIntensity := 1,
    paused := false }

/-- Particle of the C9 witness scenario, sitting at `xMax − 0.01`. -/
def pN : Particle :=
  { x := 11.99, y := 0, z := 0, speedOffset := 0, baseY := 3, phase := 0,
    wakeSpread := none }

theorem C9_recycle_scenario_witness :
    EnvWf envQ ∧ cfgN.flowType = .discrete ∧ cfgN.speed = 1 ∧
      (0 : ℚ) ≤ cfgN.thickness ∧ cfgN.thickness ≤ 40 ∧
      pN.x = BOUND_END - 0.01 ∧ (0 : ℚ) ≤ pN.speedOffset ∧ pN.speedOffset < 0.02 ∧
      (0 : ℚ) ≤ (⟨0.5, 0.5, 0.5⟩ : Rand).recycle ∧
      (⟨0.5, 0.5, 0.5⟩ : Rand).recycle < 1 ∧ pN.wakeSpread = none ∧
      ((stepPhys envQ cfgN 0 ⟨0.5, 0.5, 0.5⟩ pN).1.x =
          BOUND_START - (⟨0.5, 0.5, 0.5⟩ : Rand).recycle * 2 ∧
        -12 < (stepPhys envQ cfgN 0 ⟨0.5, 0.5, 0.5⟩ pN).1.x ∧
        (stepPhys envQ cfgN 0 ⟨0.5, 0.5, 0.5⟩ pN).1.x ≤ -10 ∧
        (stepPhys envQ cfgN 0 ⟨0.5, 0.5, 0.5⟩ pN).1.y = pN.baseY ∧
        (stepPhys envQ cfgN 0 ⟨0.5, 0.5, 0.5⟩ pN).1.wakeSpread = none) :=
  ⟨envQ_wf, rfl, rfl, by norm_num [cfgN], by norm_num [cfgN],
   by norm_num [pN, BOUND_END], by norm_num [pN], by norm_num [pN], by norm_num,
   by norm_num, rfl,
   C9_recycle_scenario envQ cfgN 0 ⟨0.5, 0.5, 0.5⟩ pN envQ_wf rfl rfl
     (by norm_num [cfgN]) (by norm_num [cfgN]) (by norm_num [pN, BOUND_END])
     (by norm_num [pN]) (by norm_num [pN]) (by norm_num) (by norm_num) rfl⟩

lemma wakeIntensity_bounds (e : Env) (cfg : Cfg) (d : ℚ) (he : EnvWf e)
    (hd : 0 ≤ d) (hT : 0 ≤ cfg.turbulenceIntensity) :
    0 ≤ wakeIntensity e cfg d ∧ wakeIntensity e cfg d ≤ cfg.turbulenceIntensity := by
  have ha0 : (0 : ℚ) ≤ min 1 (|cfg.angle| / 10 + 0.2) := by
    apply le_min
    · norm_num
    · positivity
  have ha1 : min (1 : ℚ) (|cfg.angle| / 10 + 0.2) ≤ 1 := min_le_left _ _
  have hb0 : 0 < e.exp (-d * 0.1) := he.exp_pos _
  have hb1 : e.exp (-d * 0.1) ≤ 1 := he.exp_le_one _ (by linarith)
  constructor
  · exact mul_nonneg (mul_nonneg ha0 hb0.le) hT
  · rw [wakeIntensity]
    have hab1 : min 1 (|cfg.angle| / 10 + 0.2) * e.exp (-d * 0.1) ≤ 1 :=
      mul_le_one₀ ha1 hb0.le hb1
    have := mul_le_mul_of_nonneg_right hab1 hT
    linarith

lemma baseMove_x_ub (cfg : Cfg) (r : Rand) (p : Particle) (hr0 : 0 ≤ r.recycle) :
    (baseMove cfg r p).x ≤ 12 := by
  simp only [baseMove]
  split_ifs with h
  · show BOUND_START - r.recycle * 2 ≤ 12
    rw [BOUND_START]
    linarith
  · show p.x + (cfg.speed + p.speedOffset) ≤ 12
    rw [BOUND_END] at h
    exact not_lt.mp h

lemma baseMove_x_lb (cfg : Cfg) (r : Rand) (p : Particle)
    (hsp : 0 ≤ cfg.speed) (hso : 0 ≤ p.speedOffset) (hr1 : r.recycle ≤ 1)
    (hxlo : -12 ≤ p.x) : -12 ≤ (baseMove cfg r p).x := by
  simp only [baseMove]
  split_ifs with h
  · show -12 ≤ BOUND_START - r.recycle * 2
    rw [BOUND_START]
    linarith
  · show -12 ≤ p.x + (cfg.speed + p.speedOffset)
    linarith

lemma wakeStep_x_bounds (e : Env) (cfg : Cfg) (time : ℚ) (r : Rand) (p : Particle)
    (vs : ℚ) (he : EnvWf e)
    (hT0 : 0 ≤ cfg.turbulenceIntensity) (hT3 : cfg.turbulenceIntensity ≤ 3)
    (hjx0 : 0 ≤ r.jx) (hjx1 : r.jx ≤ 1)
    (hxlo : -12 ≤ p.x) (hxhi : p.x ≤ 12) :
    -12 ≤ (wakeStep e cfg time r p vs).1.x ∧
      (wakeStep e cfg time r p vs).1.x ≤ 12 + 0.05 * cfg.turbulenceIntensity := by
  have hsep := separationPoint_bounds cfg.angle
  cases hft : cfg.flowType
  case discrete =>
    simp only [wakeStep, hft]
    split_ifs with h1 h2 h3 h4 h5
    · -- stalled, wake heat recorded
      have hdx : 0 ≤ p.x - separationPoint cfg.angle := by linarith [h1.2]
      obtain ⟨hw0, hwT⟩ :=
        wakeIntensity_bounds e cfg (p.x - separationPoint cfg.angle) he hdx hT0
      refine ⟨?_, ?_⟩
      · show -12 ≤ p.x + (r.jx - 0.5) * 0.05 *
          wakeIntensity e cfg (p.x - separationPoint cfg.angle) * 2
        nlinarith [mul_le_mul_of_nonneg_right
          (show (-0.5 : ℚ) ≤ r.jx - 0.5 by linarith) hw0, h1.2, hsep.1, hwT]
      · show p.x + (r.jx - 0.5) * 0.05 *
          wakeIntensity e cfg (p.x - separationPoint cfg.angle) * 2 ≤
          12 + 0.05 * cfg.turbulenceIntensity
        nlinarith [mul_le_mul_of_nonneg_right
          (show r.jx - 0.5 ≤ (0.5 : ℚ) by linarith) hw0, hwT]
    · -- stalled, no wake heat
      have hdx : 0 ≤ p.x - separationPoint cfg.angle := by linarith [h1.2]
      obtain ⟨hw0, hwT⟩ :=
        wakeIntensity_bounds e cfg (p.x - separationPoint cfg.angle) he hdx hT0
      refine ⟨?_, ?_⟩
      · show -12 ≤ p.x + (r.jx - 0.5) * 0.05 *
          wakeIntensity e cfg (p.x - separationPoint cfg.angle) * 2
        nlinarith [mul_le_mul_of_nonneg_right
          (show (-0.5 : ℚ) ≤ r.jx - 0.5 by linarith) hw0, h1.2, hsep.1, hwT]
      · show p.x + (r.jx - 0.5) * 0.05 *
          wakeIntensity e cfg (p.x - separationPoint cfg.angle) * 2 ≤
          12 + 0.05 * cfg.turbulenceIntensity
        nlinarith [mul_le_mul_of_nonneg_right
          (show r.jx - 0.5 ≤ (0.5 : ℚ) by linarith) hw0, hwT]
    · -- attached: x unchanged
      refine ⟨?_, ?_⟩
      · show -12 ≤ p.x
        linarith
      · show p.x ≤ 12 + 0.05 * cfg.turbulenceIntensity
        linarith
    · refine ⟨?_, ?_⟩
      · show -12 ≤ p.x
        linarith
      · show p.x ≤ 12 + 0.05 * cfg.turbulenceIntensity
        linarith
    · -- not in wake: x unchanged
      refine ⟨?_, ?_⟩
      · show -12 ≤ p.x
        linarith
      · show p.x ≤ 12 + 0.05 * cfg.turbulenceIntensity
        linarith
    · -- upstream of separation: x unchanged
      refine ⟨?_, ?_⟩
      · show -12 ≤ p.x
        linarith
      · show p.x ≤ 12 + 0.05 * cfg.turbulenceIntensity
        linarith
  case steam =>
    simp only [wakeStep, hft]
    split_ifs with h1 h2
    · refine ⟨?_, ?_⟩
      · show -12 ≤ p.x + (r.jx - 0.5) * 0.05 * cfg.turbulenceIntensity
        nlinarith [mul_le_mul_of_nonneg_right
          (show (-0.5 : ℚ) ≤ r.jx - 0.5 by linarith) hT0, h1.2, hsep.1]
      · show p.x + (r.jx - 0.5) * 0.05 * cfg.turbulenceIntensity ≤
          12 + 0.05 * cfg.turbulenceIntensity
        nlinarith [mul_le_mul_of_nonneg_right
          (show r.jx - 0.5 ≤ (0.5 : ℚ) by linarith) hT0]
    · refine ⟨?_, ?_⟩
      · show -12 ≤ p.x
        linarith
      · show p.x ≤ 12 + 0.05 * cfg.turbulenceIntensity
        linarith
    · refine ⟨?_, ?_⟩
      · show -12 ≤ p.x
        linarith
      · show p.x ≤ 12 + 0.05 * cfg.turbulenceIntensity
        linarith

/-- Streamlines configuration of the C1 counterexample. -/
def cfgS : Cfg :=
  { speed := 0.05, angle := 0, thickness := 0, flowType := .steam,
    showVortices := true, showHeatmap := false, turbulenceIntensity := 1,
    paused := false }

/-- Particle of the C1 counterexample: just inside the downstream bound,
already spreading in the wake. -/
def pB : Particle :=
  { x := 11.949, y := 0, z := 0, speedOffset := 0, baseY := 0, phase := 0,
    wakeSpread := some 1 }

/-- Random draws of the C1 counterexample: a large wake x-jitter draw. -/
def rB : Rand := ⟨0, 0.99, 0.5⟩

/-- Claim C1 counterexample: a particle that starts the tick inside
`[−12, 12]` ends the tick at `x > 12`: it survives the boundary check
(`11.949 + 0.05 = 11.999 ≤ 12`) and the steam-wake x-jitter applied
*after* that check pushes it past `xMax`, so `position.x ≤ xMax` does not
hold at the end of every tick and the particle is not reseeded within the
tick in which it exceeds `xMax`. -/
theorem C1_bounds_cex :
    -12 ≤ pB.x ∧ pB.x ≤ 12 ∧ (0 : ℚ) ≤ rB.jx ∧ rB.jx < 1 ∧
      12 < (stepPhys envQ cfgS 0 rB pB).1.x := by
  refine ⟨by norm_num [pB], by norm_num [pB], by norm_num [rB], by norm_num [rB], ?_⟩
  norm_num [stepPhys, baseMove, deflect, wakeStep, cfgS, pB, rB, envQ,
    BOUND_END, BOUND_START, separationPoint, isStalled, interactionRadius,
    wakeWidth, wsVal, jsSign, jsOrOne, liftFactor, degToRad, min_def, max_def,
    abs_of_nonneg]

/-- Claim C1 (amended): the lower bound `xMin − maxJitter = −12 ≤ x` always
holds, and any particle beyond `xMax` after the base movement is reseeded
by the boundary check of the same tick (after that check `x ≤ 12`); but
the wake x-jitter runs after the boundary check, so the end-of-tick
position only satisfies `x ≤ xMax + 0.05·turbulenceIntensity` (for the
documented turbulence range `0 ≤ turbulenceIntensity ≤ 3`); an
overshooting particle is reseeded at the next tick, not the same one. -/
theorem C1_bounds_amended (e : Env) (cfg : Cfg) (time : ℚ) (r : Rand) (p : Particle)
    (he : EnvWf e)
    (hsp : 0 ≤ cfg.speed) (hso : 0 ≤ p.speedOffset)
    (hT0 : 0 ≤ cfg.turbulenceIntensity) (hT3 : cfg.turbulenceIntensity ≤ 3)
    (hr0 : 0 ≤ r.recycle) (hr1 : r.recycle ≤ 1)
    (hjx0 : 0 ≤ r.jx) (hjx1 : r.jx ≤ 1)
    (hxlo : -12 ≤ p.x) :
    (baseMove cfg r p).x ≤ 12 ∧
      -12 ≤ (stepPhys e cfg time r p).1.x ∧
      (stepPhys e cfg time r p).1.x ≤ 12 + 0.05 * cfg.turbulenceIntensity := by
  have hub := baseMove_x_ub cfg r p hr0
  have hlb := baseMove_x_lb cfg r p hsp hso hr1 hxlo
  have hdx := deflect_x e cfg (baseMove cfg r p)
  have hm := wakeStep_x_bounds e cfg time r (deflect e cfg (baseMove cfg r p)).1
    (deflect e cfg (baseMove cfg r p)).2 he hT0 hT3 hjx0 hjx1
    (by rw [hdx]; exact hlb) (by rw [hdx]; exact hub)
  exact ⟨hub, hm.1, hm.2⟩

theorem C1_bounds_witness :
    EnvWf envQ ∧ (0 : ℚ) ≤ cfgN.speed ∧ (0 : ℚ) ≤ pW.speedOffset ∧
      (0 : ℚ) ≤ cfgN.turbulenceIntensity ∧ cfgN.turbulenceIntensity ≤ 3 ∧
      (0 : ℚ) ≤ (⟨0.5, 0.5, 0.5⟩ : Rand).recycle ∧
      (⟨0.5, 0.5, 0.5⟩ : Rand).recycle ≤ 1 ∧
      (0 : ℚ) ≤ (⟨0.5, 0.5, 0.5⟩ : Rand).jx ∧ (⟨0.5, 0.5, 0.5⟩ : Rand).jx ≤ 1 ∧
      -12 ≤ pW.x ∧
      ((baseMove cfgN ⟨0.5, 0.5, 0.5⟩ pW).x ≤ 12 ∧
        -12 ≤ (stepPhys envQ cfgN 0 ⟨0.5, 0.5, 0.5⟩ pW).1.x ∧
        (stepPhys envQ cfgN 0 ⟨0.5, 0.5, 0.5⟩ pW).1.x ≤
          12 + 0.05 * cfgN.turbulenceIntensity) :=
  ⟨envQ_wf, by norm_num [cfgN], by norm_num [pW], by norm_num [cfgN],
   by norm_num [cfgN], by norm_num, by norm_num, by norm_num, by norm_num,
   by norm_num [pW],
   C1_bounds_amended envQ cfgN 0 ⟨0.5, 0.5, 0.5⟩ pW envQ_wf
     (by norm_num [cfgN]) (by norm_num [pW]) (by norm_num [cfgN])
     (by norm_num [cfgN]) (by norm_num) (by norm_num) (by norm_num) (by norm_num)
     (by norm_num [pW])⟩

lemma baseMove_spec (cfg : Cfg) (r : Rand) (p : Particle) :
    (BOUND_END < p.x + (cfg.speed + p.speedOffset) ∧
      baseMove cfg r p = { p with
        x := BOUND_START - r.recycle * 2, y := p.baseY,
        wakeSpread := p.wakeSpread.map (fun _ => 0) }) ∨
    (p.x + (cfg.speed + p.speedOffset) ≤ BOUND_END ∧
      baseMove cfg r p = { p with x := p.x + (cfg.speed + p.speedOffset) }) := by
  simp only [baseMove]
  split_ifs with h
  · exact Or.inl ⟨h, rfl⟩
  · exact Or.inr ⟨not_lt.mp h, rfl⟩

lemma wakeStep_in_steam (e : Env) (cfg : Cfg) (time : ℚ) (r : Rand) (p : Particle)
    (vs : ℚ) (hft : cfg.flowType = .steam)
    (h1 : cfg.showVortices = true ∧ separationPoint cfg.angle < p.x)
    (h2 : |p.y| < wakeWidth cfg (p.x - separationPoint cfg.angle) ∨ 0 < wsVal p) :
    (wakeStep e cfg time r p vs).1.wakeSpread =
      some (min 2 (wsVal p + 0.01 * cfg.turbulenceIntensity)) := by
  simp only [wakeStep, hft]
  rw [if_pos h1, if_pos h2]

lemma wakeStep_nomem (e : Env) (cfg : Cfg) (time : ℚ) (r : Rand) (p : Particle)
    (vs : ℚ)
    (h1 : cfg.showVortices = true ∧ separationPoint cfg.angle < p.x)
    (h2 : ¬ (|p.y| < wakeWidth cfg (p.x - separationPoint cfg.angle) ∨ 0 < wsVal p)) :
    (wakeStep e cfg time r p vs).1 = p := by
  simp only [wakeStep]
  rw [if_pos h1, if_neg h2]

lemma wakeStep_notin (e : Env) (cfg : Cfg) (time : ℚ) (r : Rand) (p : Particle)
    (vs : ℚ)
    (h1 : ¬ (cfg.showVortices = true ∧ separationPoint cfg.angle < p.x)) :
    (wakeStep e cfg time r p vs).1.wakeSpread = p.wakeSpread.map (fun _ => 0) := by
  simp only [wakeStep]
  rw [if_neg h1]

/-- Streamlines configuration of the C4 counterexample. -/
def cfgS4 : Cfg :=
  { speed := 0.15, angle := 0, thickness := 0, flowType := .steam,
    showVortices := true, showHeatmap := false, turbulenceIntensity := 1,
    paused := false }

/-- Particle of the C4 counterexample: behind the separation point but far
above the wake cone, with accumulated spread. -/
def pS : Particle :=
  { x := 2, y := 5, z := 0, speedOffset := 0, baseY := 5, phase := 0,
    wakeSpread := some 0.5 }

def rS : Rand := ⟨0, 0.5, 0.5⟩

/-- Claim C4 counterexample: in Streamlines mode a particle that ends the
tick geometrically *outside* the wake cone (behind the separation point
but with `|y| ≥ wakeWidth`) keeps a positive `wakeSpread` (it even grows:
`0.5 → 0.51`), because the membership test `|y| < wakeWidth ||
wakeSpread > 0` is sticky; `wakeSpread` does not decay to 0 on leaving
the wake. -/
theorem C4_wakespread_cex :
    cfgS4.flowType = .steam ∧
      separationPoint cfgS4.angle < (stepPhys envQ cfgS4 0 rS pS).1.x ∧
      ¬ (|(stepPhys envQ cfgS4 0 rS pS).1.y| <
          wakeWidth cfgS4
            ((stepPhys envQ cfgS4 0 rS pS).1.x - separationPoint cfgS4.angle)) ∧
      (stepPhys envQ cfgS4 0 rS pS).1.wakeSpread = some 0.51 ∧
      (0.51 : ℚ) ≠ 0 := by
  have hx : stepPhys envQ cfgS4 0 rS pS =
      ({ pS with x := 2.15, y := 5, wakeSpread := some 0.51 },
        0.51 * 0.5) := by
    norm_num [stepPhys, baseMove, deflect, wakeStep, cfgS4, pS, rS, envQ,
      BOUND_END, BOUND_START, separationPoint, isStalled, interactionRadius,
      wakeWidth, wsVal, jsSign, jsOrOne, liftFactor, degToRad, min_def, max_def,
      abs_of_nonneg]
  rw [hx]
  refine ⟨rfl, ?_, ?_, rfl, by norm_num⟩
  · norm_num [separationPoint, isStalled, cfgS4]
  · norm_num [wakeWidth, separationPoint, isStalled, cfgS4, abs_of_nonneg]

/-- Claim C4 (amended): in Streamlines mode `wakeSpread` stays within
`[0, 2]`; it never decreases over a tick in which the particle is not
recycled and is in the wake in the *code's* sense — behind the separation
point and either inside the cone or already spreading (`wakeSpread > 0`,
the sticky membership); and it is 0 at the end of any tick at whose wake
check the particle is not in that sticky wake (ahead of the separation
point, vortices off, or freshly recycled).  It does *not* reset merely on
leaving the cone laterally while still behind the separation point. -/
theorem C4_wakespread_amended (e : Env) (cfg : Cfg) (time : ℚ) (r : Rand)
    (p : Particle) (w : ℚ)
    (hft : cfg.flowType = .steam) (hws : p.wakeSpread = some w)
    (hw0 : 0 ≤ w) (hw2 : w ≤ 2) (hT0 : 0 ≤ cfg.turbulenceIntensity)
    (hr0 : 0 ≤ r.recycle) :
    ∃ w', (stepPhys e cfg time r p).1.wakeSpread = some w' ∧ 0 ≤ w' ∧ w' ≤ 2 ∧
      (inWake cfg (deflect e cfg (baseMove cfg r p)).1 →
        p.x + (cfg.speed + p.speedOffset) ≤ BOUND_END → w ≤ w') ∧
      (¬ inWake cfg (deflect e cfg (baseMove cfg r p)).1 → w' = 0) := by
  have hsx := deflect_x e cfg (baseMove cfg r p)
  have hsw := deflect_ws e cfg (baseMove cfg r p)
  have hstep : (stepPhys e cfg time r p).1 =
      (wakeStep e cfg time r (deflect e cfg (baseMove cfg r p)).1
        (deflect e cfg (baseMove cfg r p)).2).1 := rfl
  rcases baseMove_spec cfg r p with ⟨hrec, hbm⟩ | ⟨hnrec, hbm⟩
  · -- recycled this tick: reseeded upstream, spread reset
    have hp2x : (deflect e cfg (baseMove cfg r p)).1.x =
        BOUND_START - r.recycle * 2 := by
      rw [hsx, hbm]
    have h1 : ¬ (cfg.showVortices = true ∧
        separationPoint cfg.angle < (deflect e cfg (baseMove cfg r p)).1.x) := by
      rintro ⟨-, hs⟩
      rw [hp2x, BOUND_START] at hs
      have := (separationPoint_bounds cfg.angle).1
      linarith
    have hnin : ¬ inWake cfg (deflect e cfg (baseMove cfg r p)).1 := by
      rintro ⟨hv, hs, -⟩
      exact h1 ⟨hv, hs⟩
    have hres : (stepPhys e cfg time r p).1.wakeSpread = some 0 := by
      rw [hstep, wakeStep_notin _ _ _ _ _ _ h1, hsw, hbm]
      simp [hws]
    exact ⟨0, hres, le_refl 0, by norm_num, fun hin _ => absurd hin hnin,
      fun _ => rfl⟩
  · -- not recycled
    have hp2ws : (deflect e cfg (baseMove cfg r p)).1.wakeSpread = some w := by
      rw [hsw, hbm]
      exact hws
    have hval : wsVal (deflect e cfg (baseMove cfg r p)).1 = w := by
      rw [wsVal, hp2ws]
      rfl
    by_cases hin : inWake cfg (deflect e cfg (baseMove cfg r p)).1
    · obtain ⟨hv, hs, hmem⟩ := hin
      have hres : (stepPhys e cfg time r p).1.wakeSpread =
          some (min 2 (w + 0.01 * cfg.turbulenceIntensity)) := by
        rw [hstep, wakeStep_in_steam _ _ _ _ _ _ hft ⟨hv, hs⟩ hmem, hval]
      refine ⟨min 2 (w + 0.01 * cfg.turbulenceIntensity), hres, ?_,
        min_le_left _ _, fun _ _ => ?_, fun hni => absurd ⟨hv, hs, hmem⟩ hni⟩
      · exact le_min (by norm_num) (by linarith)
      · exact le_min hw2 (by linarith)
    · by_cases h1 : cfg.showVortices = true ∧
          separationPoint cfg.angle < (deflect e cfg (baseMove cfg r p)).1.x
      · have h2 : ¬ (|(deflect e cfg (baseMove cfg r p)).1.y| <
            wakeWidth cfg ((deflect e cfg (baseMove cfg r p)).1.x -
              separationPoint cfg.angle) ∨
            0 < wsVal (deflect e cfg (baseMove cfg r p)).1) := by
          intro h2
          exact hin ⟨h1.1, h1.2, h2⟩
        have hw_eq : w = 0 := by
          rw [not_or, hval] at h2
          exact le_antisymm (not_lt.mp h2.2) hw0
        have hres : (stepPhys e cfg time r p).1.wakeSpread = some w := by
          rw [hstep, wakeStep_nomem _ _ _ _ _ _ h1 h2]
          exact hp2ws
        exact ⟨w, hres, hw0, hw2, fun _ _ => le_refl w, fun _ => hw_eq⟩
      · have hres : (stepPhys e cfg time r p).1.wakeSpread = some 0 := by
          rw [hstep, wakeStep_notin _ _ _ _ _ _ h1, hp2ws]
          rfl
        exact ⟨0, hres, le_refl 0, by norm_num, fun hin2 _ => absurd hin2 hin,
          fun _ => rfl⟩

theorem C4_wakespread_witness :
    cfgS4.flowType = .steam ∧ pS.wakeSpread = some 0.5 ∧ (0 : ℚ) ≤ 0.5 ∧
      (0.5 : ℚ) ≤ 2 ∧ (0 : ℚ) ≤ cfgS4.turbulenceIntensity ∧ (0 : ℚ) ≤ rS.recycle ∧
      (∃ w', (stepPhys envQ cfgS4 0 rS pS).1.wakeSpread = some w' ∧
        0 ≤ w' ∧ w' ≤ 2 ∧
        (inWake cfgS4 (deflect envQ cfgS4 (baseMove cfgS4 rS pS)).1 →
          pS.x + (cfgS4.speed + pS.speedOffset) ≤ BOUND_END → 0.5 ≤ w') ∧
        (¬ inWake cfgS4 (deflect envQ cfgS4 (baseMove cfgS4 rS pS)).1 → w' = 0)) :=
  ⟨rfl, rfl, by norm_num, by norm_num, by norm_num [cfgS4], by norm_num [rS],
   C4_wakespread_amended envQ cfgS4 0 rS pS 0.5 rfl rfl (by norm_num)
     (by norm_num) (by norm_num [cfgS4]) (by norm_num [rS])⟩

end AeroLab
